import Mathlib

/-!
Shallow embedding of the sensor-monitor component (src/src/SensorMonitor.jsx).

The source file contains two near-duplicate variants of the same component;
the embedding below follows the second (richer) variant, which adds the
derived barometer state and the ISA pressure fallback.  The event handlers
(handleOrientation, handleMotion, handleGPS) and resetSensors have the same
logic in both variants.

JavaScript numbers are modelled as real numbers; nullable / possibly-absent
event fields are modelled as `Option ℝ`.  The JavaScript idiom `a || b` on a
possibly-absent number (false on `null`, `undefined` and `0`) is modelled by
`jsOr`, and the ternary `a ? x : y` on a number by the same truthiness test.
-/

namespace SensorMonitor

/-- JavaScript truthiness-based defaulting `a || d` for a nullable number:
`null`/`undefined` and `0` are falsy, so they yield the default. -/
noncomputable def jsOr (o : Option ℝ) (d : ℝ) : ℝ :=
  match o with
  | none => d
  | some x => if x = 0 then d else x

/-- `Math.round` for the arguments appearing in this program: round half up,
`Math.round x = ⌊x + 1/2⌋`. -/
noncomputable def jsRound (x : ℝ) : ℤ :=
  ⌊x + 1 / 2⌋

/-- JavaScript `%` on integers: remainder with the sign of the dividend
(truncated division), which is `Int.tmod`. -/
def jsRem (a b : ℤ) : ℤ :=
  Int.tmod a b

/-- JavaScript array indexing `l[i]`: `undefined` (here `none`) when the
index is out of bounds, including negative indices. -/
def jsIndex (l : List String) (i : ℤ) : Option String :=
  if i < 0 then none else l.get? i.toNat

/-- GPS subtree of the sensors state: `latitude/longitude/accuracy/heading`
start as `null`, `altitude` and `speed` start at `0`. -/
structure GpsState where
  latitude : Option ℝ
  longitude : Option ℝ
  altitude : ℝ
  accuracy : Option ℝ
  speed : ℝ
  heading : Option ℝ

/-- Accelerometer subtree: decoded components, instantaneous total G and the
running peak G. -/
structure AccelState where
  x : ℝ
  y : ℝ
  z : ℝ
  totalG : ℝ
  peakG : ℝ

/-- Magnetometer subtree: heading in degrees plus reported accuracy. -/
structure MagState where
  heading : ℝ
  accuracy : ℝ

/-- Per-channel availability flags. -/
structure AvailState where
  gps : Bool
  motion : Bool
  orientation : Bool

/-- Derived barometer subtree (second variant): ISA pressure estimate and a
vertical-speed field. -/
structure BaroState where
  pressureHPa : ℝ
  verticalSpeed : ℝ

/-- Device subtree: the estimated temperature used by the derivations. -/
structure DeviceState where
  cpuTemp : ℝ

/-- The whole `sensors` state object. -/
structure Sensors where
  gps : GpsState
  accelerometer : AccelState
  magnetometer : MagState
  available : AvailState
  barometer : BaroState
  device : DeviceState

/-- The initial `useState` value of `sensors` in the second variant. -/
noncomputable def initialSensors : Sensors where
  gps := { latitude := none, longitude := none, altitude := 0,
           accuracy := none, speed := 0, heading := none }
  accelerometer := { x := 0, y := 0, z := 0, totalG := 0, peakG := 0 }
  magnetometer := { heading := 0, accuracy := 0 }
  available := { gps := false, motion := false, orientation := false }
  barometer := { pressureHPa := 1013.25, verticalSpeed := 0 }
  device := { cpuTemp := 40 }

/-- The gravity-inclusive acceleration vector of a `devicemotion` event; each
component may be absent. -/
structure Acc where
  x : Option ℝ
  y : Option ℝ
  z : Option ℝ

/-- A `devicemotion` event: the `accelerationIncludingGravity` vector may be
absent altogether. -/
structure MotionEvent where
  accelerationIncludingGravity : Option Acc

/-- A `deviceorientation` event. -/
structure OrientationEvent where
  webkitCompassHeading : Option ℝ
  alpha : Option ℝ
  webkitCompassAccuracy : Option ℝ

/-- The `coords` of a geolocation fix: latitude, longitude and accuracy are
always numbers; altitude, speed and heading are nullable. -/
structure Coords where
  latitude : ℝ
  longitude : ℝ
  altitude : Option ℝ
  accuracy : ℝ
  speed : Option ℝ
  heading : Option ℝ

/-- `calculatePressureFromAlt`: ISA fallback pressure.  The guard
`if (!altMeters) return 1013.25` fires exactly on a falsy (here zero)
altitude; otherwise `P = 1013.25 * (1 - 2.25577e-5 * h) ^ 5.25588`. -/
noncomputable def calculatePressureFromAlt (altMeters : ℝ) : ℝ :=
  if altMeters = 0 then 1013.25
  else 1013.25 * (1 - 2.25577e-5 * altMeters) ^ (5.25588 : ℝ)

/-- The eight compass sector labels. -/
def dirs : List String :=
  ["N", "NE", "E", "SE", "S", "SW", "W", "NW"]

/-- `getCompassDirection`: `dirs[Math.round(deg / 45) % 8]`. -/
noncomputable def getCompassDirection (deg : ℝ) : Option String :=
  jsIndex dirs (jsRem (jsRound (deg / 45)) 8)

/-- The heading decoded by `handleOrientation`:
`e.webkitCompassHeading || (e.alpha ? 360 - e.alpha : 0)`. -/
noncomputable def decodedHeading (e : OrientationEvent) : ℝ :=
  jsOr e.webkitCompassHeading
    (match e.alpha with
     | none => 0
     | some a => if a = 0 then 0 else 360 - a)

/-- `handleOrientation`: overwrite the magnetometer subtree with the decoded
heading and accuracy and mark the orientation channel available. -/
noncomputable def handleOrientation (e : OrientationEvent) (prev : Sensors) : Sensors :=
  { prev with
    magnetometer := { heading := decodedHeading e,
                      accuracy := jsOr e.webkitCompassAccuracy 0 },
    available := { prev.available with orientation := true } }

/-- The instantaneous total G computed by `handleMotion` for a present
acceleration vector: `Math.sqrt (x*x + y*y + z*z) / 9.81` after defaulting
each absent component to `0`. -/
noncomputable def accTotal (acc : Acc) : ℝ :=
  Real.sqrt (jsOr acc.x 0 * jsOr acc.x 0 + jsOr acc.y 0 * jsOr acc.y 0 +
    jsOr acc.z 0 * jsOr acc.z 0) / 9.81

/-- `handleMotion`: drop the event when the gravity-inclusive vector is
absent (`if (!acc) return`); otherwise overwrite the accelerometer subtree,
fold the new total into the running peak and mark the motion channel
available. -/
noncomputable def handleMotion (e : MotionEvent) (prev : Sensors) : Sensors :=
  match e.accelerationIncludingGravity with
  | none => prev
  | some acc =>
      { prev with
        accelerometer := { x := jsOr acc.x 0, y := jsOr acc.y 0, z := jsOr acc.z 0,
                           totalG := accTotal acc,
                           peakG := max prev.accelerometer.peakG (accTotal acc) },
        available := { prev.available with motion := true } }

/-- `handleGPS`: decode the fix (`altitude || 0`, `speed || 0`), recompute
the ISA pressure from the decoded altitude, overwrite the GPS subtree and the
barometer pressure and mark the GPS channel available. -/
noncomputable def handleGPS (pos : Coords) (prev : Sensors) : Sensors :=
  let alt := jsOr pos.altitude 0
  let press := calculatePressureFromAlt alt
  { prev with
    gps := { latitude := some pos.latitude, longitude := some pos.longitude,
             altitude := alt, accuracy := some pos.accuracy,
             speed := jsOr pos.speed 0, heading := pos.heading },
    barometer := { prev.barometer with pressureHPa := press },
    available := { prev.available with gps := true } }

/-- `resetSensors`: zero `peakG`, keep everything else. -/
noncomputable def resetSensors (prev : Sensors) : Sensors :=
  { prev with accelerometer := { prev.accelerometer with peakG := 0 } }

/-- The operations a session can perform on the sensors state.  Granting the
device-orientation permission only sets the separate `permissionGranted`
state, so it leaves `sensors` untouched. -/
inductive Op where
  | orientation (e : OrientationEvent)
  | motion (e : MotionEvent)
  | gps (p : Coords)
  | reset
  | grantPermission

/-- One step of the sensors state under an operation. -/
noncomputable def step (op : Op) (s : Sensors) : Sensors :=
  match op with
  | Op.orientation e => handleOrientation e s
  | Op.motion e => handleMotion e s
  | Op.gps p => handleGPS p s
  | Op.reset => resetSensors s
  | Op.grantPermission => s

/-- A session run: fold a list of operations over a state. -/
noncomputable def run (ops : List Op) (s : Sensors) : Sensors :=
  List.foldl (fun st op => step op st) s ops

/-- The channels that carry an availability flag. -/
inductive Channel where
  | gps
  | motion
  | orientation

/-- The availability flag of a channel in a state. -/
def availOf (s : Sensors) : Channel → Bool
  | Channel.gps => s.available.gps
  | Channel.motion => s.available.motion
  | Channel.orientation => s.available.orientation

/-- A run of motion events only, as the motion channel sees them. -/
noncomputable def motionRun (es : List MotionEvent) (s : Sensors) : Sensors :=
  List.foldl (fun st e => handleMotion e st) s es

/-- A run of motion events paired with their wall-clock arrival times.  The
handler takes no time argument, so the timestamps are simply ignored. -/
noncomputable def motionRunTimed (evts : List (ℝ × MotionEvent)) (s : Sensors) : Sensors :=
  List.foldl (fun st te => handleMotion te.2 st) s evts

/-- A run of motion samples whose acceleration vector is present. -/
noncomputable def motionRunAcc (l : List Acc) (s : Sensors) : Sensors :=
  List.foldl (fun st a => handleMotion ⟨some a⟩ st) s l

/-- What a value slot of the render shows: either the literal placeholder
text of its falsy branch, or the formatted numeric value. -/
inductive FieldDisplay where
  | placeholder
  | shown (x : ℝ)

/-- The latitude cell of the GPS card:
`sensors.gps.latitude ? sensors.gps.latitude.toFixed(6) : <placeholder>` —
the branch tests the numeric value's truthiness, not the availability
flag. -/
noncomputable def latitudeDisplay (s : Sensors) : FieldDisplay :=
  match s.gps.latitude with
  | none => FieldDisplay.placeholder
  | some x => if x = 0 then FieldDisplay.placeholder else FieldDisplay.shown x

/-- The heading shown by the compass card: always
`Math.round(sensors.magnetometer.heading)`; the GPS subtree is not read. -/
noncomputable def compassHeadingDisplayed (s : Sensors) : ℤ :=
  jsRound s.magnetometer.heading

/-- Claim C7: the reset-peaks action sets `peakG` to `0` and changes no other
field: the instantaneous G, the x/y/z components, every other channel's
subtree and every availability flag are unchanged. -/
theorem c7_reset_frame (s : Sensors) :
    (resetSensors s).accelerometer.peakG = 0 ∧
    (resetSensors s).accelerometer.totalG = s.accelerometer.totalG ∧
    (resetSensors s).accelerometer.x = s.accelerometer.x ∧
    (resetSensors s).accelerometer.y = s.accelerometer.y ∧
    (resetSensors s).accelerometer.z = s.accelerometer.z ∧
    (resetSensors s).gps = s.gps ∧
    (resetSensors s).magnetometer = s.magnetometer ∧
    (resetSensors s).available = s.available ∧
    (resetSensors s).barometer = s.barometer ∧
    (resetSensors s).device = s.device :=
  ⟨rfl, rfl, rfl, rfl, rfl, rfl, rfl, rfl, rfl, rfl⟩

/-- Claim C9: a motion event whose gravity-inclusive acceleration vector is
absent is dropped entirely: the whole sensors state, hence every field of
the snapshot including the motion availability flag, is unchanged. -/
theorem c9_malformed_motion_dropped (s : Sensors) :
    handleMotion ⟨none⟩ s = s :=
  rfl

/-- Claim C4 counterexample: for the altitude sequence 100 m then 110 m
(arriving 5 s apart), the computed vertical speed is `0`, not the `2.0` m/s
the claim requires: no handler ever writes `verticalSpeed`. -/
theorem c4_counterexample :
    (handleGPS ⟨0, 0, some 110, 5, none, none⟩
        (handleGPS ⟨0, 0, some 100, 5, none, none⟩ initialSensors)).barometer.verticalSpeed
      = 0 ∧ (0 : ℝ) ≠ 2 := by
  constructor
  · simp [handleGPS, initialSensors]
  · norm_num

/-- Claim C4 amended: the code never computes a climb rate.  `verticalSpeed`
is `0` in the initial state and no operation of a session (GPS fix, motion or
orientation event, reset, permission grant) ever changes it. -/
theorem c4_amended :
    (∀ (ops : List Op) (s : Sensors),
      (run ops s).barometer.verticalSpeed = s.barometer.verticalSpeed) ∧
    initialSensors.barometer.verticalSpeed = 0 := by
  constructor
  · intro ops
    induction ops with
    | nil => intro s; rfl
    | cons op rest ih =>
        intro s
        have hstep : (step op s).barometer.verticalSpeed = s.barometer.verticalSpeed := by
          cases op with
          | orientation e => rfl
          | motion e =>
              cases h : e.accelerationIncludingGravity with
              | none => simp [step, handleMotion, h]
              | some acc => simp [step, handleMotion, h]
          | gps p => rfl
          | reset => rfl
          | grantPermission => rfl
        calc (run (op :: rest) s).barometer.verticalSpeed
            = (run rest (step op s)).barometer.verticalSpeed := rfl
          _ = (step op s).barometer.verticalSpeed := ih (step op s)
          _ = s.barometer.verticalSpeed := hstep
  · rfl

/-- Claim C5: for every channel and every sequence of session operations
(sensor events, reset-peaks, permission grants), the availability flag is
monotonic: once true it is never set back to false. -/
theorem c5_availability_monotone (ops : List Op) (s : Sensors) (c : Channel)
    (h : availOf s c = true) : availOf (run ops s) c = true := by
  induction ops generalizing s with
  | nil => exact h
  | cons op rest ih =>
      have hstep : availOf (step op s) c = true := by
        cases op with
        | orientation e => cases c <;> simp_all [step, handleOrientation, availOf]
        | motion e =>
            cases hacc : e.accelerationIncludingGravity with
            | none => cases c <;> simp_all [step, handleMotion, availOf]
            | some acc => cases c <;> simp_all [step, handleMotion, availOf]
        | gps p => cases c <;> simp_all [step, handleGPS, availOf]
        | reset => cases c <;> simp_all [step, resetSensors, availOf]
        | grantPermission => exact h
      exact ih (step op s) hstep

/-- Witness for C5: after a first GPS fix the GPS channel is available, and
it stays available across a subsequent reset-peaks action. -/
theorem c5_witness :
    availOf (handleGPS ⟨1, 2, none, 3, none, none⟩ initialSensors) Channel.gps = true ∧
    availOf (run [Op.reset]
      (handleGPS ⟨1, 2, none, 3, none, none⟩ initialSensors)) Channel.gps = true :=
  ⟨by simp [availOf, handleGPS],
   c5_availability_monotone [Op.reset] _ Channel.gps (by simp [availOf, handleGPS])⟩

/-- Claim C2: for a motion sample sequence, the peak G after processing
sample `k` is the maximum of the peak after sample `k - 1` and the total G of
sample `k`; the peak accumulator observes every sample. -/
theorem c2_peak_recurrence (s : Sensors) (l : List Acc) (k : ℕ) (hk : k < l.length) :
    (motionRunAcc (l.take (k + 1)) s).accelerometer.peakG
      = max ((motionRunAcc (l.take k) s).accelerometer.peakG)
          (accTotal (l.get ⟨k, hk⟩)) := by
  have htake : l.take (k + 1) = l.take k ++ [l.get ⟨k, hk⟩] := by
    rw [List.take_succ, List.getElem?_eq_getElem hk]
    simp
  rw [htake]
  unfold motionRunAcc
  rw [List.foldl_append]
  simp [handleMotion]

/-- Witness for C2: a one-sample sequence whose vector is (0, 0, 9.81),
processed from the initial state. -/
theorem c2_witness :
    0 < ([(⟨some 0, some 0, some 9.81⟩ : Acc)]).length ∧
    (motionRunAcc ([(⟨some 0, some 0, some 9.81⟩ : Acc)].take 1) initialSensors).accelerometer.peakG
      = max ((motionRunAcc ([(⟨some 0, some 0, some 9.81⟩ : Acc)].take 0) initialSensors).accelerometer.peakG)
          (accTotal (([(⟨some 0, some 0, some 9.81⟩ : Acc)]).get ⟨0, by simp⟩)) :=
  ⟨by simp, c2_peak_recurrence initialSensors [⟨some 0, some 0, some 9.81⟩] 0 (by simp)⟩

/-- Claim C1 counterexample: two decoded motion readings arriving 1 ms apart
(well under the 300 ms fast-channel throttle interval the design configures)
both commit: each mutates the snapshot, so consecutive committed mutations
are separated by less than the interval, and a reading arriving before the
interval has elapsed still mutates the snapshot. -/
theorem c1_counterexample :
    motionRunTimed [((0 : ℝ), ⟨some ⟨some 0, some 0, some 9.81⟩⟩)] initialSensors
      ≠ initialSensors ∧
    motionRunTimed [((0 : ℝ), ⟨some ⟨some 0, some 0, some 9.81⟩⟩),
        ((1 : ℝ), ⟨some ⟨some 0, some 0, some 19.62⟩⟩)] initialSensors
      ≠ motionRunTimed [((0 : ℝ), ⟨some ⟨some 0, some 0, some 9.81⟩⟩)] initialSensors ∧
    (1 : ℝ) - 0 < 300 := by
  have key : ∀ z : ℝ, 0 < z → accTotal ⟨some 0, some 0, some z⟩ = z / 9.81 := by
    intro z hz
    simp only [accTotal, jsOr]
    rw [if_neg (ne_of_gt hz)]
    norm_num
    rw [show (z * z : ℝ) = z ^ 2 by ring, Real.sqrt_sq hz.le]
  have ha1 : accTotal (⟨some 0, some 0, some 9.81⟩ : Acc) = 1 := by
    rw [key 9.81 (by norm_num)]
    norm_num
  have ha2 : accTotal (⟨some 0, some 0, some 19.62⟩ : Acc) = 2 := by
    rw [key 19.62 (by norm_num)]
    norm_num
  have hs1 : (motionRunTimed [((0 : ℝ), ⟨some ⟨some 0, some 0, some 9.81⟩⟩)]
      initialSensors).accelerometer.totalG = 1 := by
    simp [motionRunTimed, handleMotion, ha1]
  have hs2 : (motionRunTimed [((0 : ℝ), ⟨some ⟨some 0, some 0, some 9.81⟩⟩),
      ((1 : ℝ), ⟨some ⟨some 0, some 0, some 19.62⟩⟩)]
      initialSensors).accelerometer.totalG = 2 := by
    simp [motionRunTimed, handleMotion, ha2]
  refine ⟨?_, ?_, by norm_num⟩
  · intro h
    have htg := congrArg (fun s => s.accelerometer.totalG) h
    simp only at htg
    rw [hs1] at htg
    have h0 : initialSensors.accelerometer.totalG = 0 := rfl
    rw [h0] at htg
    norm_num at htg
  · intro h
    have htg := congrArg (fun s => s.accelerometer.totalG) h
    simp only at htg
    rw [hs1, hs2] at htg
    norm_num at htg

/-- Claim C1 amended: no throttling exists.  The motion handler never
consults a timestamp (a timed run equals the untimed run on the same events),
and every decoded reading whose acceleration vector is present immediately
commits: it overwrites the accelerometer subtree and marks the channel
available, regardless of how recently the previous commit happened. -/
theorem c1_amended :
    (∀ (evts : List (ℝ × MotionEvent)) (s : Sensors),
      motionRunTimed evts s = motionRun (evts.map Prod.snd) s) ∧
    (∀ (s : Sensors) (a : Acc),
      (handleMotion ⟨some a⟩ s).accelerometer.totalG = accTotal a ∧
      (handleMotion ⟨some a⟩ s).accelerometer.x = jsOr a.x 0 ∧
      (handleMotion ⟨some a⟩ s).accelerometer.y = jsOr a.y 0 ∧
      (handleMotion ⟨some a⟩ s).accelerometer.z = jsOr a.z 0 ∧
      (handleMotion ⟨some a⟩ s).accelerometer.peakG
        = max s.accelerometer.peakG (accTotal a) ∧
      (handleMotion ⟨some a⟩ s).available.motion = true) := by
  constructor
  · intro evts s
    unfold motionRunTimed motionRun
    rw [List.foldl_map]
  · intro s a
    exact ⟨rfl, rfl, rfl, rfl, rfl, rfl⟩

/-- Claim C3 counterexample: after a GPS fix with ground speed 10 m/s
(36 km/h, well above 3 km/h) and GPS heading 90 degrees, the displayed
heading is still the magnetometer reading 0, not the GPS heading 90. -/
theorem c3_counterexample :
    (handleGPS ⟨1, 2, none, 3, some 10, some 90⟩ initialSensors).gps.speed * 3.6 > 3 ∧
    (handleGPS ⟨1, 2, none, 3, some 10, some 90⟩ initialSensors).gps.heading = some 90 ∧
    compassHeadingDisplayed (handleGPS ⟨1, 2, none, 3, some 10, some 90⟩ initialSensors)
      = 0 ∧
    (0 : ℤ) ≠ 90 := by
  refine ⟨?_, rfl, ?_, by norm_num⟩
  · have : (handleGPS ⟨1, 2, none, 3, some 10, some 90⟩ initialSensors).gps.speed = 10 := by
      simp [handleGPS, jsOr]
    rw [this]
    norm_num
  · have : compassHeadingDisplayed (handleGPS ⟨1, 2, none, 3, some 10, some 90⟩
        initialSensors) = jsRound 0 := rfl
    rw [this]
    unfold jsRound
    norm_num

/-- Claim C3 amended: the displayed heading never comes from the GPS: a GPS
fix leaves the displayed heading unchanged whatever its speed and heading,
and the display always equals the rounded heading decoded from the latest
orientation event (native compass heading, else 360 minus alpha, else 0). -/
theorem c3_amended :
    (∀ (p : Coords) (s : Sensors),
      compassHeadingDisplayed (handleGPS p s) = compassHeadingDisplayed s) ∧
    (∀ (e : OrientationEvent) (s : Sensors),
      compassHeadingDisplayed (handleOrientation e s) = jsRound (decodedHeading e)) :=
  ⟨fun _ _ => rfl, fun _ _ => rfl⟩

/-- Claim C8 counterexample: after a fix at latitude 0 (the equator) the GPS
channel is available and the committed latitude is 0, yet the latitude cell
renders exactly the same placeholder as the initial, unavailable state: the
render branches on the value's truthiness, not the availability flag. -/
theorem c8_counterexample :
    (handleGPS ⟨0, 7, none, 5, none, none⟩ initialSensors).available.gps = true ∧
    (handleGPS ⟨0, 7, none, 5, none, none⟩ initialSensors).gps.latitude = some 0 ∧
    initialSensors.available.gps = false ∧
    latitudeDisplay (handleGPS ⟨0, 7, none, 5, none, none⟩ initialSensors)
      = latitudeDisplay initialSensors := by
  refine ⟨rfl, rfl, rfl, ?_⟩
  have h1 : latitudeDisplay (handleGPS ⟨0, 7, none, 5, none, none⟩ initialSensors)
      = FieldDisplay.placeholder := by
    simp [latitudeDisplay, handleGPS]
  have h2 : latitudeDisplay initialSensors = FieldDisplay.placeholder := rfl
  rw [h1, h2]

/-- Claim C8 amended: the latitude render conflates a legitimate zero reading
with absence: every snapshot whose committed latitude is 0 displays exactly
what a snapshot with no latitude at all displays, availability flags
notwithstanding. -/
theorem c8_amended (s t : Sensors) (hs : s.gps.latitude = some 0)
    (ht : t.gps.latitude = none) : latitudeDisplay s = latitudeDisplay t := by
  unfold latitudeDisplay
  rw [hs, ht]
  simp

/-- Witness for the amended C8: the post-fix available state with latitude 0
against the initial unavailable state. -/
theorem c8_witness :
    (handleGPS ⟨0, 7, none, 5, none, none⟩ initialSensors).gps.latitude = some 0 ∧
    initialSensors.gps.latitude = none ∧
    latitudeDisplay (handleGPS ⟨0, 7, none, 5, none, none⟩ initialSensors)
      = latitudeDisplay initialSensors :=
  ⟨rfl, rfl, c8_amended (handleGPS ⟨0, 7, none, 5, none, none⟩ initialSensors)
    initialSensors rfl rfl⟩

/-- Claim C6: the ISA fallback pressure is 1013.25 (within 0.01) at altitude
0 and strictly decreasing over altitudes from 0 to 10000 meters. -/
theorem c6_pressure_model :
    |calculatePressureFromAlt 0 - 1013.25| ≤ 0.01 ∧
    ∀ a b : ℝ, 0 ≤ a → a < b → b ≤ 10000 →
      calculatePressureFromAlt b < calculatePressureFromAlt a := by
  constructor
  · rw [show calculatePressureFromAlt 0 = 1013.25 from if_pos rfl]
    norm_num
  · intro a b ha hab hb
    have hb0 : 0 < b := lt_of_le_of_lt ha hab
    have hxb0 : (0 : ℝ) < 1 - 2.25577e-5 * b := by nlinarith
    have hPb : calculatePressureFromAlt b
        = 1013.25 * (1 - 2.25577e-5 * b) ^ (5.25588 : ℝ) :=
      if_neg (ne_of_gt hb0)
    rcases eq_or_lt_of_le ha with ha0 | ha0
    · rw [hPb, ← ha0, show calculatePressureFromAlt 0 = 1013.25 from if_pos rfl]
      have hxb1 : 1 - 2.25577e-5 * b < 1 := by nlinarith
      have := Real.rpow_lt_one hxb0.le hxb1 (by norm_num : (0:ℝ) < 5.25588)
      nlinarith
    · have hPa : calculatePressureFromAlt a
          = 1013.25 * (1 - 2.25577e-5 * a) ^ (5.25588 : ℝ) :=
        if_neg (ne_of_gt ha0)
      rw [hPa, hPb]
      have hlt : 1 - 2.25577e-5 * b < 1 - 2.25577e-5 * a := by nlinarith
      have := Real.rpow_lt_rpow hxb0.le hlt (by norm_num : (0:ℝ) < 5.25588)
      nlinarith

/-- Witness for C6: the strict-decrease part applied at altitudes 0 and
10000. -/
theorem c6_witness :
    (0 : ℝ) ≤ 0 ∧ (0 : ℝ) < 10000 ∧ (10000 : ℝ) ≤ 10000 ∧
    calculatePressureFromAlt 10000 < calculatePressureFromAlt 0 :=
  ⟨le_refl 0, by norm_num, le_refl 10000,
   c6_pressure_model.2 0 10000 (le_refl 0) (by norm_num) (le_refl 10000)⟩

/-- Claim C10: for every non-negative heading, `getCompassDirection` hits the
eight-element direction array in bounds and returns one of its labels: the
index `round(h / 45) % 8` always lies within 0..7. -/
theorem c10_compass_direction_total (h : ℝ) (hh : 0 ≤ h) :
    ∃ d ∈ dirs, getCompassDirection h = some d := by
  unfold getCompassDirection jsIndex jsRem
  set n := Int.tmod (jsRound (h / 45)) 8 with hn
  have hr0 : 0 ≤ jsRound (h / 45) := by
    unfold jsRound
    have hd : (0 : ℝ) ≤ h / 45 := div_nonneg hh (by norm_num)
    have : (0 : ℝ) ≤ h / 45 + 1 / 2 := by linarith
    exact Int.le_floor.mpr (by exact_mod_cast this)
  have hn0 : 0 ≤ n := Int.tmod_nonneg 8 hr0
  have hn8 : n < 8 := by
    rw [hn, Int.tmod_eq_emod hr0 (by norm_num : (0:ℤ) ≤ 8)]
    exact Int.emod_lt_of_pos _ (by norm_num)
  rw [if_neg (not_lt.mpr hn0)]
  have hlt : n.toNat < dirs.length := by
    have h8 : n.toNat < 8 := by omega
    simpa [dirs] using h8
  refine ⟨dirs.get ⟨n.toNat, hlt⟩, List.get_mem _ _ _, ?_⟩
  exact List.get?_eq_get hlt

/-- Witness for C10: the heading 450 (above 360) still yields a label. -/
theorem c10_witness :
    (0 : ℝ) ≤ 450 ∧ ∃ d ∈ dirs, getCompassDirection 450 = some d :=
  ⟨by norm_num, c10_compass_direction_total 450 (by norm_num)⟩

end SensorMonitor
